import Mathlib

/-
Verification development for the cement-plant process-optimization repository.

The synthetic data generator (`src/data/tabular data/data_generator.py`) is a
linear numpy/pandas pipeline.  It is embedded here over `ℚ`, with the
pseudo-random state abstracted into explicit draw streams consumed in the
program order of the `np.random` calls: `z` holds the standard-normal draws
(`np.random.normal(m, s, N)` at call position `v` yields `m + s * z (v*N + i)`
for row `i`), `u` holds the uniform(0,1) draws of the anomaly phase
(`np.random.uniform(a, b, k)` at uniform-call position `c` yields
`a + (b - a) * u (c*k + j)` for the `j`-th selected row), and the three
`np.random.choice(index, k, replace=False)` results are the lists
`pick1`, `pick2`, `pick3`.  `clock j` is the value of `datetime.now()`
(in minutes) observed at iteration `j` of the timestamp comprehension and
`interval` is `INTERVAL_MINUTES`.

The four Flask services are embedded as pure request → response functions
with the external managed endpoints abstracted as `Option`-valued oracles.
-/

namespace Cement

/-- Round a rational to the nearest integer, ties to even, mirroring the
rounding used by Python `round` and by numpy/pandas (`DataFrame.round`). -/
def roundHE (x : ℚ) : ℤ :=
  if x - (⌊x⌋ : ℚ) < 1/2 then ⌊x⌋
  else if (1/2 : ℚ) < x - (⌊x⌋ : ℚ) then ⌊x⌋ + 1
  else if ⌊x⌋ % 2 = 0 then ⌊x⌋ else ⌊x⌋ + 1

/-- Rounding to two decimal places, as applied by `data.round(2)` and by
`round(predicted_value, 2)` in the prediction services. -/
def round2 (x : ℚ) : ℚ := ((roundHE (100 * x) : ℤ) : ℚ) / 100

/-- `x` lies exactly on a two-decimal rounding midpoint (a tie for `round2`). -/
abbrev isMid (x : ℚ) : Prop := 100 * x - (⌊(100 * x : ℚ)⌋ : ℚ) = 1/2

/-- The inputs of one run of `data_generator.py`, with the pseudo-random
state abstracted into the streams described in the header comment. -/
structure GenInput where
  N : Nat
  z : Nat → ℚ
  u : Nat → ℚ
  pick1 : List Nat
  pick2 : List Nat
  pick3 : List Nat
  clock : Nat → ℚ
  interval : ℚ

/-- `num_problems = int(len(data) * 0.15)` (truncation of `0.15 * N`). -/
def numProblemsN (n : Nat) : Nat := 15 * n / 100

/-- `num_problems // num_scenarios` with `num_scenarios = 3`: the size of
each anomaly subset. -/
def subsetSizeN (n : Nat) : Nat := numProblemsN n / 3

/-- Size of each of the three `np.random.choice` subsets for a run. -/
def subsetSize (G : GenInput) : Nat := subsetSizeN G.N

/-- The contract of `np.random.choice(data.index, k, replace=False)`:
a list of `k` distinct indices drawn from the full index range. -/
abbrev validPick (n k : Nat) (l : List Nat) : Prop :=
  l.length = k ∧ l.Nodup ∧ ∀ i ∈ l, i < n

/-- All three anomaly subsets satisfy the `np.random.choice` contract;
no disjointness across subsets is imposed, because each draw is taken
independently from the full index range. -/
abbrev validPicks (G : GenInput) : Prop :=
  validPick G.N (subsetSize G) G.pick1
  ∧ validPick G.N (subsetSize G) G.pick2
  ∧ validPick G.N (subsetSize G) G.pick3

/-- `timestamps[i] = datetime.now() - timedelta(minutes=i*INTERVAL_MINUTES)`;
`datetime.now()` is re-evaluated at each iteration, hence `clock i`. -/
def ts (G : GenInput) (i : Nat) : ℚ := G.clock i - (i : ℚ) * G.interval

/-- The limestone_feed_rate_% column: `np.random.normal(78.0, 1.5, N)`. -/
def limestone0 (G : GenInput) (i : Nat) : ℚ := 78 + (3/2) * G.z (0 * G.N + i)

/-- The clay_feed_rate_% column: `np.random.normal(16.0, 1.0, N)`. -/
def clay0 (G : GenInput) (i : Nat) : ℚ := 16 + 1 * G.z (1 * G.N + i)

/-- The iron_ore_feed_rate_% column: `np.random.normal(3.5, 0.3, N)`. -/
def ironOre0 (G : GenInput) (i : Nat) : ℚ := 7/2 + (3/10) * G.z (2 * G.N + i)

/-- The bauxite_feed_rate_% column: `100 - (limestone + clay + iron_ore)`. -/
def bauxite0 (G : GenInput) (i : Nat) : ℚ :=
  100 - (limestone0 G i + clay0 G i + ironOre0 G i)

/-- The raw_meal_feed_rate_tph column: `np.random.normal(175.0, 5.0, N)`. -/
def rawMeal (G : GenInput) (i : Nat) : ℚ := 175 + 5 * G.z (3 * G.N + i)

/-- The fuel_feed_rate_tph column: `np.random.normal(9.5, 0.3, N)`. -/
def fuel (G : GenInput) (i : Nat) : ℚ := 19/2 + (3/10) * G.z (4 * G.N + i)

/-- The fuel_alt_substitution_rate_% column: `np.random.normal(15.0, 2.0, N)`. -/
def fuelAlt (G : GenInput) (i : Nat) : ℚ := 15 + 2 * G.z (5 * G.N + i)

/-- The kiln_hood_pressure_mmH2O column: `np.random.normal(-6.0, 0.5, N)`. -/
def hoodPressure (G : GenInput) (i : Nat) : ℚ := -6 + (1/2) * G.z (6 * G.N + i)

/-- The kiln_burner_air_flow_m3/hr column: `np.random.normal(25000, 500, N)`. -/
def airFlow (G : GenInput) (i : Nat) : ℚ := 25000 + 500 * G.z (7 * G.N + i)

/-- The clinker_feed_rate_tph column: `np.random.normal(110.0, 3.0, N)`. -/
def clinker (G : GenInput) (i : Nat) : ℚ := 110 + 3 * G.z (8 * G.N + i)

/-- The gypsum_feed_rate_tph column: `np.random.normal(5.5, 0.2, N)`. -/
def gypsum (G : GenInput) (i : Nat) : ℚ := 11/2 + (1/5) * G.z (9 * G.N + i)

/-- The mill_recirculation_ratio_% column: `np.random.normal(55.0, 5.0, N)`. -/
def recirc (G : GenInput) (i : Nat) : ℚ := 55 + 5 * G.z (10 * G.N + i)

/-- The kiln_main_drive_current_Amp column: `np.random.normal(200.0, 5.0, N)`. -/
def driveCurrent0 (G : GenInput) (i : Nat) : ℚ := 200 + 5 * G.z (11 * G.N + i)

/-- `raw_meal_lsf_ratio = 95 + (limestone - 78.0)*2.5 + np.random.normal(0, 0.5, N)`. -/
def lsf0 (G : GenInput) (i : Nat) : ℚ :=
  95 + (limestone0 G i - 78) * (5/2) + (1/2) * G.z (12 * G.N + i)

/-- `clinker_free_lime_% = 1.0 - (fuel - 9.5)*0.5 + (lsf - 95)*0.4 + np.random.normal(0, 0.1, N)`. -/
def freeLime0 (G : GenInput) (i : Nat) : ℚ :=
  1 - (fuel G i - 19/2) * (1/2) + (lsf0 G i - 95) * (2/5) + (1/10) * G.z (13 * G.N + i)

/-- `kiln_specific_thermal_energy = 750 + (raw_meal - 175.0)*5 - (fuel_alt - 15.0)*2 + np.random.normal(0, 10, N)`. -/
def thermal0 (G : GenInput) (i : Nat) : ℚ :=
  750 + (rawMeal G i - 175) * 5 - (fuelAlt G i - 15) * 2 + 10 * G.z (14 * G.N + i)

/-- `kiln_exit_nox = 400 + (fuel - 9.5)*50 + (fuel_alt - 15.0)*3 + np.random.normal(0, 20, N)`. -/
def nox0 (G : GenInput) (i : Nat) : ℚ :=
  400 + (fuel G i - 19/2) * 50 + (fuelAlt G i - 15) * 3 + 20 * G.z (15 * G.N + i)

/-- `mill_motor_power_draw_kW = 4800 + (clinker - 110.0)*20 + (recirc - 55.0)*10 - (free_lime - 1.0)*50 + np.random.normal(0, 50, N)`. -/
def power0 (G : GenInput) (i : Nat) : ℚ :=
  4800 + (clinker G i - 110) * 20 + (recirc G i - 55) * 10
    - (freeLime0 G i - 1) * 50 + 50 * G.z (16 * G.N + i)

/-- `cement_fineness_blaine = 3600 - (clinker - 110.0)*15 - (power - 4800)*0.1 + np.random.normal(0, 50, N)`. -/
def fineness0 (G : GenInput) (i : Nat) : ℚ :=
  3600 - (clinker G i - 110) * 15 - (power0 G i - 4800) * (1/10) + 50 * G.z (17 * G.N + i)

/-- `mill_specific_electrical_energy = power / (clinker + gypsum)` (no noise term). -/
def elec0 (G : GenInput) (i : Nat) : ℚ :=
  power0 G i / (clinker G i + gypsum G i)

/-- Scenario 1 (High LSF): `limestone += np.random.uniform(4, 8, k)` on the
selected rows; a uniform(4,8) draw is `4 + 4 * u j` for position `j`. -/
def limestoneF (G : GenInput) (i : Nat) : ℚ :=
  if i ∈ G.pick1 then limestone0 G i + (4 + 4 * G.u (G.pick1.indexOf i))
  else limestone0 G i

/-- Scenario 1: `lsf = 95 + (limestone - 78.0)*2.5 + np.random.normal(0, 0.5, k)`
recomputed on the selected rows from the bumped limestone with fresh noise
(the fresh draws sit at positions `18*N + j` of the normal stream). -/
def lsfF (G : GenInput) (i : Nat) : ℚ :=
  if i ∈ G.pick1 then
    95 + (limestoneF G i - 78) * (5/2) + (1/2) * G.z (18 * G.N + G.pick1.indexOf i)
  else lsf0 G i

/-- Scenario 1: `free_lime = 1.0 + (lsf - 95)*0.4 + np.random.uniform(1.0, 1.5, k)`
on the selected rows (the fuel term of the baseline formula is dropped). -/
def freeLime1 (G : GenInput) (i : Nat) : ℚ :=
  if i ∈ G.pick1 then
    1 + (lsfF G i - 95) * (2/5) + (1 + (1/2) * G.u (subsetSize G + G.pick1.indexOf i))
  else freeLime0 G i

/-- Scenario 2 (mill inefficiency): `power += np.random.uniform(200, 400, k)`. -/
def powerF (G : GenInput) (i : Nat) : ℚ :=
  if i ∈ G.pick2 then
    power0 G i + (200 + 200 * G.u (2 * subsetSize G + G.pick2.indexOf i))
  else power0 G i

/-- Scenario 2: `fineness -= np.random.uniform(300, 500, k)`. -/
def finenessF (G : GenInput) (i : Nat) : ℚ :=
  if i ∈ G.pick2 then
    fineness0 G i - (300 + 200 * G.u (3 * subsetSize G + G.pick2.indexOf i))
  else fineness0 G i

/-- Scenario 2: `elec = power / (clinker + gypsum)` recomputed from the bumped
power draw on the selected rows. -/
def elecF (G : GenInput) (i : Nat) : ℚ :=
  if i ∈ G.pick2 then powerF G i / (clinker G i + gypsum G i)
  else elec0 G i

/-- Scenario 3 (kiln instability): `drive_current += np.random.uniform(30, 60, k)`. -/
def driveF (G : GenInput) (i : Nat) : ℚ :=
  if i ∈ G.pick3 then
    driveCurrent0 G i + (30 + 30 * G.u (4 * subsetSize G + G.pick3.indexOf i))
  else driveCurrent0 G i

/-- Scenario 3: `free_lime += np.random.uniform(0.5, 0.8, k)`, applied after
scenario 1 (so on top of `freeLime1`). -/
def freeLimeF (G : GenInput) (i : Nat) : ℚ :=
  if i ∈ G.pick3 then
    freeLime1 G i + (1/2 + (3/10) * G.u (5 * subsetSize G + G.pick3.indexOf i))
  else freeLime1 G i

/-- Scenario 3: `thermal += np.random.uniform(50, 80, k)`. -/
def thermalF (G : GenInput) (i : Nat) : ℚ :=
  if i ∈ G.pick3 then
    thermal0 G i + (50 + 30 * G.u (6 * subsetSize G + G.pick3.indexOf i))
  else thermal0 G i

/-- The `column_order` list of the source (original column names). -/
def column_order : List String :=
  ["timestamp", "limestone_feed_rate_%", "clay_feed_rate_%", "iron_ore_feed_rate_%",
   "bauxite_feed_rate_%", "raw_meal_feed_rate_tph", "fuel_feed_rate_tph",
   "fuel_alt_substitution_rate_%", "kiln_hood_pressure_mmH2O", "kiln_burner_air_flow_m3/hr",
   "kiln_main_drive_current_Amp", "clinker_feed_rate_tph", "gypsum_feed_rate_tph",
   "mill_recirculation_ratio_%", "raw_meal_lsf_ratio", "clinker_free_lime_%",
   "kiln_specific_thermal_energy_Kcal/kg_clinker", "kiln_exit_nox_emissions_mg/Nm3",
   "mill_motor_power_draw_kW", "mill_specific_electrical_energy_kWh/ton_cement",
   "cement_fineness_blaine_cm2/g"]

/-- The `bq_friendly_columns` list of the source (final storage-safe names). -/
def bq_friendly_columns : List String :=
  ["timestamp", "limestone_feed_rate_pct", "clay_feed_rate_pct", "iron_ore_feed_rate_pct",
   "bauxite_feed_rate_pct", "raw_meal_feed_rate_tph", "fuel_feed_rate_tph",
   "fuel_alt_substitution_rate_pct", "kiln_hood_pressure_mmH2O", "kiln_burner_air_flow_m3_hr",
   "kiln_main_drive_current_amp", "clinker_feed_rate_tph", "gypsum_feed_rate_tph",
   "mill_recirculation_ratio_pct", "raw_meal_lsf_ratio", "clinker_free_lime_pct",
   "kiln_specific_thermal_energy_kcal_per_kg_clinker", "kiln_exit_nox_emissions_mg_per_nm3",
   "mill_motor_power_draw_kW", "mill_specific_electrical_energy_kwh_per_ton_cement",
   "cement_fineness_blaine_cm2_per_g"]

/-- The 20 numeric cells of row `i` after anomaly injection, before rounding,
listed in the canonical `column_order` sequence (timestamp excluded). -/
def numericColsPre (G : GenInput) (i : Nat) : List ℚ :=
  [limestoneF G i, clay0 G i, ironOre0 G i, bauxite0 G i,
   rawMeal G i, fuel G i, fuelAlt G i, hoodPressure G i, airFlow G i,
   driveF G i, clinker G i, gypsum G i, recirc G i, lsfF G i, freeLimeF G i,
   thermalF G i, nox0 G i, powerF G i, elecF G i, finenessF G i]

/-- One finalized row: the (unrounded, non-numeric) timestamp followed by the
20 numeric cells rounded to two decimals by `data.round(2)`. -/
def finalRow (G : GenInput) (i : Nat) : List ℚ :=
  ts G i :: (numericColsPre G i).map round2

/-- The data rows of the serialized file, in index order. -/
def outputRows (G : GenInput) : List (List ℚ) :=
  (List.range G.N).map (finalRow G)

/-- The header row of the serialized file. -/
def outputHeader : List String := bq_friendly_columns

/-- Concrete generator input: 20 rows, all normal draws 0, all uniform draws 0,
anomaly subsets `[0]`, `[1]`, `[2]`, constant clock, 15-minute interval. -/
def Gc : GenInput :=
  GenInput.mk 20 (fun _ => 0) (fun _ => 0) [0] [1] [2] (fun _ => 0) 15

/-- Like `Gc` but with overlapping anomaly subsets: row 0 is selected both by
the High-LSF scenario and by the kiln-instability scenario. -/
def Gc3 : GenInput :=
  GenInput.mk 20 (fun _ => 0) (fun _ => 0) [0] [1] [0] (fun _ => 0) 15

/-- Like `Gc` but generated at a different wall-clock instant. -/
def Gct : GenInput :=
  GenInput.mk 20 (fun _ => 0) (fun _ => 0) [0] [1] [2] (fun _ => 100) 15

/-- Concrete generator input whose row 0 is a mill-inefficiency row with an
adverse rounding alignment: all normal draws stay within five standard
deviations (clinker draw -4.9983, gypsum draw 0.025, recirculation draw 4,
power-noise draw 3), giving clinker 95.005, gypsum 5.505, recirculation 75,
base power 4850.1; the scenario-2 uniform draw 0.12073675 then lifts the
power draw to 5074.24735, so the electrical energy is exactly 50.485. -/
def Gc5 : GenInput :=
  GenInput.mk 20
    (fun n => if n = 160 then -2999/600 else if n = 180 then 1/40
      else if n = 200 then 4 else if n = 320 then 3 else 0)
    (fun n => if n = 2 then 482947/4000000 else 0)
    [1] [0] [2] (fun _ => 0) 15

/-- Abstract HTTP response of the Flask services: a raw 200 body, a 200 JSON
object `{key: val}` (`val = none` renders as JSON `null`), or an error status
with body `{error: msg}`. -/
inductive Resp where
| ok (text : String)
| okJson (key : String) (val : Option ℚ)
| err (status : Nat) (msg : String)
deriving DecidableEq

/-- HTTP status code of a response. -/
def Resp.status : Resp → Nat
| .ok _ => 200
| .okJson _ _ => 200
| .err s _ => s

/-- `MODEL_FEATURES` for the thermal-energy service. -/
def thermalFeatures : List String :=
  ["raw_meal_feed_rate_tph", "fuel_feed_rate_tph", "fuel_alt_substitution_rate_pct",
   "kiln_hood_pressure_mmH2O", "kiln_burner_air_flow_m3_hr", "kiln_main_drive_current_amp"]

/-- The MODEL_FEATURES entry for clinker_free_lime_% in the free-lime service. -/
def freeLimeFeatures : List String :=
  ["raw_meal_lsf_ratio", "limestone_feed_rate_pct", "clay_feed_rate_pct",
   "iron_ore_feed_rate_pct", "bauxite_feed_rate_pct", "raw_meal_feed_rate_tph",
   "fuel_feed_rate_tph", "fuel_alt_substitution_rate_pct",
   "kiln_hood_pressure_mmH2O", "kiln_burner_air_flow_m3_hr", "kiln_main_drive_current_amp"]

/-- `[f for f, v in input_data.items() if v is None]`: the required features
absent from the request payload `j`. -/
def missingFeatures (features : List String) (j : String → Option ℚ) : List String :=
  features.filter (fun f => (j f).isNone)

/-- `flask_predict` of the kiln-thermal-energy service.  `endpointInit` is
whether the Vertex AI endpoint object was initialized at startup, `body` the
result of `get_json` (`none` for an empty/invalid body), `vertex` the result
of `get_vertex_prediction` (`none` for any failure or unexpected shape). -/
def thermalPredict (endpointInit : Bool) (body : Option (String → Option ℚ))
    (vertex : Option ℚ) : Resp :=
  match body with
  | none => Resp.err 400 "The request body is empty or not a valid JSON."
  | some j =>
    match endpointInit with
    | false => Resp.err 503 "Prediction service is unavailable for kiln_specific_thermal_energy_Kcal/kg_clinker."
    | true =>
      if missingFeatures thermalFeatures j ≠ [] then
        Resp.err 400 "Missing data for required features."
      else
        match vertex with
        | some v => Resp.okJson "kiln_specific_thermal_energy_Kcal/kg_clinker" (some (round2 v))
        | none => Resp.err 500 "Prediction returned an invalid or null value."

/-- `flask_predict` of the clinker-free-lime service: the prediction result is
initialized to `None` and every failure path (uninitialized endpoint, missing
features, failed external call) leaves it `None` and still answers 200. -/
def freeLimePredict (endpointInit : Bool) (body : Option (String → Option ℚ))
    (vertex : Option ℚ) : Resp :=
  match body with
  | none => Resp.err 400 "The request body is empty or not a valid JSON."
  | some j =>
    match endpointInit with
    | false => Resp.okJson "clinker_free_lime_%" none
    | true =>
      if missingFeatures freeLimeFeatures j ≠ [] then
        Resp.okJson "clinker_free_lime_%" none
      else
        match vertex with
        | some v => Resp.okJson "clinker_free_lime_%" (some (round2 v))
        | none => Resp.okJson "clinker_free_lime_%" none

/-- `flask_predict` of the image-analysis service: one catch-all handler maps
every failure (invalid JSON, missing `image_data_b64`, model-call failure)
to status 500; `modelText` is the generative-model response text. -/
def imageAnalyze (body : Option (String → Option String))
    (modelText : Option String) : Resp :=
  match body with
  | none => Resp.err 500 "Invalid JSON or empty request body."
  | some j =>
    match j "image_data_b64" with
    | none => Resp.err 500 "Missing required key image_data_b64 in the JSON payload."
    | some _ =>
      match modelText with
      | some t => Resp.ok t
      | none => Resp.err 500 "Image analysis model call failed."

/-- `flask_route_recommendations` of the recommendation service: the payload
flags record presence of non-empty `current_inputs` and `predicted_kpis`;
every failure is caught by the single handler returning status 500. -/
def recommendSvc (body : Option (Bool × Bool)) (modelText : Option String) : Resp :=
  match body with
  | none => Resp.err 500 "Invalid JSON or empty request body. Expected current_inputs and predicted_kpis."
  | some (ci, pk) =>
    if ci && pk then
      match modelText with
      | some t => Resp.ok t
      | none => Resp.err 500 "The LLM recommendation engine encountered an error."
    else Resp.err 500 "Missing current_inputs or predicted_kpis in the JSON payload."

/-- All-absent request payload. -/
def jNone : String → Option ℚ := fun _ => none

/-- All-present request payload (every feature is `1`). -/
def jAll : String → Option ℚ := fun _ => some 1

/-- The integer produced by `roundHE` is within one half of its argument. -/
theorem roundHE_err (x : ℚ) : |(roundHE x : ℚ) - x| ≤ 1/2 := by
  have h0 : ((⌊x⌋ : ℤ) : ℚ) ≤ x := Int.floor_le x
  have h1 : x < (⌊x⌋ : ℚ) + 1 := Int.lt_floor_add_one x
  unfold roundHE
  split_ifs with hA hB hC
  · rw [abs_le]; constructor <;> linarith
  · push_cast; rw [abs_le]; constructor <;> linarith
  · rw [abs_le]; constructor <;> linarith
  · push_cast; rw [abs_le]; constructor <;> linarith

/-- Away from a tie, `roundHE` is strictly within one half of its argument. -/
theorem roundHE_err_lt (x : ℚ) (h : ¬ (x - (⌊x⌋ : ℚ) = 1/2)) :
    |(roundHE x : ℚ) - x| < 1/2 := by
  have h0 : ((⌊x⌋ : ℤ) : ℚ) ≤ x := Int.floor_le x
  have h1 : x < (⌊x⌋ : ℚ) + 1 := Int.lt_floor_add_one x
  unfold roundHE
  split_ifs with hA hB hC
  · rw [abs_lt]; constructor <;> linarith
  · push_cast; rw [abs_lt]; constructor <;> linarith
  · exact absurd (by linarith) h
  · exact absurd (by linarith) h

/-- Two-decimal rounding moves a value by at most `0.005`. -/
theorem round2_err (x : ℚ) : |round2 x - x| ≤ 1/200 := by
  have h := roundHE_err (100 * x)
  have e : round2 x - x = ((roundHE (100 * x) : ℚ) - 100 * x) / 100 := by
    unfold round2; ring
  rw [e, abs_div, abs_of_pos (show (0:ℚ) < 100 by norm_num)]
  linarith

/-- Away from a midpoint, two-decimal rounding moves a value by strictly
less than `0.005`. -/
theorem round2_err_lt (x : ℚ) (h : ¬ isMid x) : |round2 x - x| < 1/200 := by
  have hlt := roundHE_err_lt (100 * x) h
  have e : round2 x - x = ((roundHE (100 * x) : ℚ) - 100 * x) / 100 := by
    unfold round2; ring
  rw [e, abs_div, abs_of_pos (show (0:ℚ) < 100 by norm_num)]
  linarith

/-- Triangle inequality for a difference. -/
theorem abs_sub_le_abs_add_abs (a b : ℚ) : |a - b| ≤ |a| + |b| := by
  calc |a - b| = |a + -b| := by rw [sub_eq_add_neg]
  _ ≤ |a| + |(-b)| := abs_add _ _
  _ = |a| + |b| := by rw [abs_neg]

/-- If four rationals sum exactly to 100 and none sits on a rounding midpoint,
their two-decimal roundings sum to 100 within `0.01`: the total rounding error
is an integer multiple of `0.01` of magnitude strictly below `0.02`. -/
theorem sum4_round_bound (a b c d : ℚ) (h : a + b + c + d = 100)
    (ha : ¬ isMid a) (hb : ¬ isMid b) (hc : ¬ isMid c) (hd : ¬ isMid d) :
    |round2 a + round2 b + round2 c + round2 d - 100| ≤ 1/100 := by
  have ea := round2_err_lt a ha
  have eb := round2_err_lt b hb
  have ec := round2_err_lt c hc
  have ed := round2_err_lt d hd
  have hsum : |round2 a + round2 b + round2 c + round2 d - 100| < 1/50 := by
    have e1 : round2 a + round2 b + round2 c + round2 d - 100
        = (round2 a - a) + (round2 b - b) + (round2 c - c) + (round2 d - d) := by
      linear_combination h
    rw [e1]
    have t1 := abs_add ((round2 a - a) + (round2 b - b) + (round2 c - c)) (round2 d - d)
    have t2 := abs_add ((round2 a - a) + (round2 b - b)) (round2 c - c)
    have t3 := abs_add (round2 a - a) (round2 b - b)
    linarith
  have hK : round2 a + round2 b + round2 c + round2 d - 100
      = ((roundHE (100*a) + roundHE (100*b) + roundHE (100*c) + roundHE (100*d) - 10000 : ℤ) : ℚ) / 100 := by
    unfold round2
    push_cast
    ring
  rw [hK] at hsum ⊢
  rw [abs_div, abs_of_pos (show (0:ℚ) < 100 by norm_num)] at hsum ⊢
  have h2 : |(roundHE (100*a) + roundHE (100*b) + roundHE (100*c) + roundHE (100*d) - 10000 : ℤ)| < 2 := by
    have hq : |((roundHE (100*a) + roundHE (100*b) + roundHE (100*c) + roundHE (100*d) - 10000 : ℤ) : ℚ)| < 2 := by
      linarith
    exact_mod_cast hq
  have h3 : |(roundHE (100*a) + roundHE (100*b) + roundHE (100*c) + roundHE (100*d) - 10000 : ℤ)| ≤ 1 := by
    omega
  have h4 : |((roundHE (100*a) + roundHE (100*b) + roundHE (100*c) + roundHE (100*d) - 10000 : ℤ) : ℚ)| ≤ 1 := by
    exact_mod_cast h3
  linarith

/-- Sharp frontier for the rounded ratio: whenever `2*p + s ≤ s * s_rounded`
(with `s = c + g` and `s_rounded` the sum of the two rounded summands),
rounding the numerator, the two denominator summands and the quotient of
`p / (c + g)` independently to two decimals perturbs the quotient by at most
`0.01`. -/
theorem ratio_round_frontier (p c g : ℚ) (hp0 : 0 ≤ p) (hs0 : 0 < c + g)
    (hfront : 2 * p + (c + g) ≤ (c + g) * (round2 c + round2 g)) :
    |round2 (p / (c + g)) - round2 p / (round2 c + round2 g)| ≤ 1/100 := by
  have hpc := round2_err p
  have hcc := round2_err c
  have hgc := round2_err g
  have hss : |round2 c + round2 g - (c + g)| ≤ 1/100 := by
    have e : round2 c + round2 g - (c + g) = (round2 c - c) + (round2 g - g) := by ring
    rw [e]
    have := abs_add (round2 c - c) (round2 g - g)
    linarith
  have hs'0 : (0:ℚ) < round2 c + round2 g := by
    by_contra hle
    push_neg at hle
    have hnp : (c + g) * (round2 c + round2 g) ≤ 0 :=
      mul_nonpos_iff.mpr (Or.inl ⟨le_of_lt hs0, hle⟩)
    linarith
  have hmid := round2_err (p / (c + g))
  have hkey : |p / (c + g) - round2 p / (round2 c + round2 g)| ≤ 1/200 := by
    rw [div_sub_div _ _ (ne_of_gt hs0) (ne_of_gt hs'0), abs_div,
        abs_of_pos (mul_pos hs0 hs'0), div_le_iff₀ (mul_pos hs0 hs'0)]
    have e : p * (round2 c + round2 g) - (c + g) * round2 p
        = p * ((round2 c + round2 g) - (c + g)) - (round2 p - p) * (c + g) := by ring
    have t1 : |p * ((round2 c + round2 g) - (c + g))| ≤ p * (1/100) := by
      rw [abs_mul, abs_of_nonneg hp0]
      exact mul_le_mul_of_nonneg_left hss hp0
    have t2 : |(round2 p - p) * (c + g)| ≤ (1/200) * (c + g) := by
      rw [abs_mul, abs_of_pos hs0]
      exact mul_le_mul_of_nonneg_right hpc (le_of_lt hs0)
    have hnum : |p * (round2 c + round2 g) - (c + g) * round2 p|
        ≤ p * (1/100) + (c + g) / 200 := by
      rw [e]
      have := abs_sub_le_abs_add_abs (p * ((round2 c + round2 g) - (c + g)))
        ((round2 p - p) * (c + g))
      linarith
    linarith
  calc |round2 (p / (c + g)) - round2 p / (round2 c + round2 g)|
      ≤ |round2 (p / (c + g)) - p / (c + g)|
        + |p / (c + g) - round2 p / (round2 c + round2 g)| := abs_sub_le _ _ _
    _ ≤ 1/200 + 1/200 := add_le_add hmid hkey
    _ = 1/100 := by norm_num

/-- Concrete instance of the frontier: `0 ≤ p ≤ 5600` and `107 ≤ c + g`
land inside it, so the rounded ratio is exact to `0.01` there. -/
theorem ratio_round_bound107 (p c g : ℚ) (hp0 : 0 ≤ p) (hp : p ≤ 5600) (hs : 107 ≤ c + g) :
    |round2 (p / (c + g)) - round2 p / (round2 c + round2 g)| ≤ 1/100 := by
  have hcc := round2_err c
  have hgc := round2_err g
  have habsc := abs_le.mp hcc
  have habsg := abs_le.mp hgc
  have hs0 : (0:ℚ) < c + g := by linarith
  apply ratio_round_frontier p c g hp0 hs0
  have hs' : (c + g) - 1/100 ≤ round2 c + round2 g := by linarith [habsc.1, habsg.1]
  have h1 : (c + g) * ((c + g) - 1/100) ≤ (c + g) * (round2 c + round2 g) :=
    mul_le_mul_of_nonneg_left hs' (le_of_lt hs0)
  have h2 : 107 * (c + g) ≤ (c + g) * (c + g) := by nlinarith
  nlinarith

/-- Over the full simulated operating range (`0 ≤ p ≤ 5600`, `98 ≤ c + g`)
the rounded ratio is exact to `0.011`; the `0.01` tolerance itself can fail
just outside the frontier, as `Gc5` exhibits. -/
theorem ratio_round_bound98 (p c g : ℚ) (hp0 : 0 ≤ p) (hp : p ≤ 5600) (hs : 98 ≤ c + g) :
    |round2 (p / (c + g)) - round2 p / (round2 c + round2 g)| ≤ 11/1000 := by
  have hpc := round2_err p
  have hcc := round2_err c
  have hgc := round2_err g
  have hss : |round2 c + round2 g - (c + g)| ≤ 1/100 := by
    have e : round2 c + round2 g - (c + g) = (round2 c - c) + (round2 g - g) := by ring
    rw [e]
    have := abs_add (round2 c - c) (round2 g - g)
    linarith
  have habs := abs_le.mp hss
  have hs' : 9799/100 ≤ round2 c + round2 g := by linarith [habs.1]
  have hs0 : (0:ℚ) < c + g := by linarith
  have hs'0 : (0:ℚ) < round2 c + round2 g := by linarith
  have hmid := round2_err (p / (c + g))
  have hkey : |p / (c + g) - round2 p / (round2 c + round2 g)| ≤ 3/500 := by
    rw [div_sub_div _ _ (ne_of_gt hs0) (ne_of_gt hs'0), abs_div,
        abs_of_pos (mul_pos hs0 hs'0), div_le_iff₀ (mul_pos hs0 hs'0)]
    have e : p * (round2 c + round2 g) - (c + g) * round2 p
        = p * ((round2 c + round2 g) - (c + g)) - (round2 p - p) * (c + g) := by ring
    have t1 : |p * ((round2 c + round2 g) - (c + g))| ≤ 5600 * (1/100) := by
      rw [abs_mul, abs_of_nonneg hp0]
      exact mul_le_mul hp hss (abs_nonneg _) (by norm_num)
    have t2 : |(round2 p - p) * (c + g)| ≤ (1/200) * (c + g) := by
      rw [abs_mul, abs_of_pos hs0]
      exact mul_le_mul_of_nonneg_right hpc (le_of_lt hs0)
    have hnum : |p * (round2 c + round2 g) - (c + g) * round2 p| ≤ 56 + (c + g) / 200 := by
      rw [e]
      have := abs_sub_le_abs_add_abs (p * ((round2 c + round2 g) - (c + g)))
        ((round2 p - p) * (c + g))
      linarith
    have hmul : (c + g) * (9799/100) ≤ (c + g) * (round2 c + round2 g) :=
      mul_le_mul_of_nonneg_left hs' (le_of_lt hs0)
    linarith
  calc |round2 (p / (c + g)) - round2 p / (round2 c + round2 g)|
      ≤ |round2 (p / (c + g)) - p / (c + g)|
        + |p / (c + g) - round2 p / (round2 c + round2 g)| := abs_sub_le _ _ _
    _ ≤ 1/200 + 3/500 := add_le_add hmid hkey
    _ = 11/1000 := by norm_num

/-- C1 (counterexample): the blend-composition sum is not 100 on every
generated row.  On a run with all draws zero in which row 0 is selected by
the High-LSF scenario, the scenario adds a uniform(4,8) increment (here 4)
to limestone only, so the four blend percentages of row 0 sum to 104 before
rounding, and their rounded values miss 100 by far more than 0.01. -/
theorem C1_counterexample :
    validPicks Gc
    ∧ 0 ∈ Gc.pick1
    ∧ limestoneF Gc 0 + clay0 Gc 0 + ironOre0 Gc 0 + bauxite0 Gc 0 = 104
    ∧ ((104:ℚ) ≠ 100)
    ∧ ¬ (|round2 (limestoneF Gc 0) + round2 (clay0 Gc 0) + round2 (ironOre0 Gc 0)
          + round2 (bauxite0 Gc 0) - 100| ≤ 1/100) := by
  refine ⟨by decide, by decide, ?_, by norm_num, ?_⟩
  · norm_num [limestoneF, limestone0, clay0, ironOre0, bauxite0, Gc]
  · norm_num [round2, roundHE, limestoneF, limestone0, clay0, ironOre0, bauxite0, Gc]

/-- C1 (amended): for every row NOT selected by the High-LSF anomaly scenario,
the four blend-composition percentages sum to exactly 100 before rounding;
after rounding to two decimals the sum stays within plus-or-minus 0.01
provided no blend value lies exactly on a rounding midpoint.  Rows selected
by the High-LSF scenario instead sum to 100 plus the uniform(4,8) limestone
increment. -/
theorem C1_amended_blend_sum : ∀ (G : GenInput) (i : Nat), i ∉ G.pick1 →
    limestoneF G i + clay0 G i + ironOre0 G i + bauxite0 G i = 100
    ∧ (¬ isMid (limestoneF G i) → ¬ isMid (clay0 G i) → ¬ isMid (ironOre0 G i) →
        ¬ isMid (bauxite0 G i) →
       |round2 (limestoneF G i) + round2 (clay0 G i) + round2 (ironOre0 G i)
         + round2 (bauxite0 G i) - 100| ≤ 1/100) := by
  intro G i hi
  have hL : limestoneF G i = limestone0 G i := by simp only [limestoneF, if_neg hi]
  have hsum : limestoneF G i + clay0 G i + ironOre0 G i + bauxite0 G i = 100 := by
    rw [hL]; unfold bauxite0; ring
  exact ⟨hsum, fun ha hb hc hd => sum4_round_bound _ _ _ _ hsum ha hb hc hd⟩

/-- C1 witness: on the concrete run `Gc`, row 5 is unperturbed and its rounded
blend percentages sum to 100 within 0.01. -/
theorem C1_amended_blend_sum_witness :
    |round2 (limestoneF Gc 5) + round2 (clay0 Gc 5) + round2 (ironOre0 Gc 5)
      + round2 (bauxite0 Gc 5) - 100| ≤ 1/100 :=
  (C1_amended_blend_sum Gc 5 (by decide)).2
    (by norm_num [isMid, limestoneF, limestone0, Gc])
    (by norm_num [isMid, clay0, Gc])
    (by norm_num [isMid, ironOre0, Gc])
    (by norm_num [isMid, bauxite0, limestone0, clay0, ironOre0, Gc])

/-- C2: before anomaly injection, every derived KPI of every row equals
exactly its declared affine formula over that row of independent variables
plus that row of independently indexed Gaussian noise with the declared
standard deviations (LSF 0.5, free lime 0.1, thermal energy 10, NOx 20,
mill power 50, fineness 50), in dependency order; the electrical-energy KPI
is the pure ratio `power / (clinker + gypsum)` with no noise term. -/
theorem C2_kpi_formulas : ∀ (G : GenInput) (i : Nat),
    lsf0 G i = 95 + (5/2) * (limestone0 G i - 78) + (1/2) * G.z (12 * G.N + i)
    ∧ freeLime0 G i
      = 1 - (1/2) * (fuel G i - 19/2) + (2/5) * (lsf0 G i - 95) + (1/10) * G.z (13 * G.N + i)
    ∧ thermal0 G i
      = 750 + 5 * (rawMeal G i - 175) - 2 * (fuelAlt G i - 15) + 10 * G.z (14 * G.N + i)
    ∧ nox0 G i
      = 400 + 50 * (fuel G i - 19/2) + 3 * (fuelAlt G i - 15) + 20 * G.z (15 * G.N + i)
    ∧ power0 G i
      = 4800 + 20 * (clinker G i - 110) + 10 * (recirc G i - 55)
        - 50 * (freeLime0 G i - 1) + 50 * G.z (16 * G.N + i)
    ∧ fineness0 G i
      = 3600 - 15 * (clinker G i - 110) - (1/10) * (power0 G i - 4800) + 50 * G.z (17 * G.N + i)
    ∧ elec0 G i = power0 G i / (clinker G i + gypsum G i) := by
  intro G i
  refine ⟨?_, ?_, ?_, ?_, ?_, ?_, rfl⟩
  · unfold lsf0; ring
  · unfold freeLime0; ring
  · unfold thermal0; ring
  · unfold nox0; ring
  · unfold power0; ring
  · unfold fineness0; ring

/-- C3 (counterexample): the High-LSF overridden free-lime formula does not
hold in the final table for every High-LSF row.  On the concrete run `Gc3`,
row 0 is selected both by the High-LSF scenario and by the kiln-instability
scenario: the High-LSF formula yields 6, but the final free lime is 6.5
because the kiln-instability increment is applied afterwards on top of it. -/
theorem C3_counterexample :
    validPicks Gc3
    ∧ 0 ∈ Gc3.pick1
    ∧ freeLimeF Gc3 0 = 13/2
    ∧ 1 + (2/5) * (lsfF Gc3 0 - 95)
      + (1 + (1/2) * Gc3.u (subsetSize Gc3 + Gc3.pick1.indexOf 0)) = 6
    ∧ (13/2 : ℚ) ≠ 6 := by
  refine ⟨by decide, by decide, ?_, ?_, by norm_num⟩
  · norm_num [freeLimeF, freeLime1, lsfF, limestoneF, limestone0, subsetSize, subsetSizeN,
      numProblemsN, Gc3]
  · norm_num [lsfF, limestoneF, limestone0, subsetSize, subsetSizeN, numProblemsN, Gc3]

/-- C3 (amended): every row selected by an anomaly scenario satisfies that
scenario's overridden formulas exactly, pre-rounding, in the final table —
High LSF: limestone increased by uniform(4,8), LSF recomputed by the baseline
formula with fresh noise, and (for rows not also selected by kiln instability,
whose later overwrite wins) free lime recomputed as
`1.0 + 0.4*(lsf - 95) + uniform(1.0, 1.5)` with the fuel term dropped;
mill inefficiency: power increased by uniform(200,400), fineness decreased by
uniform(300,500), electrical energy recomputed from the updated power;
kiln instability: drive current, free lime and thermal energy increased by
uniform(30,60), uniform(0.5,0.8) and uniform(50,80) over their prior values. -/
theorem C3_amended_anomaly_formulas : ∀ (G : GenInput) (i : Nat),
    (i ∈ G.pick1 →
      limestoneF G i = limestone0 G i + (4 + 4 * G.u (G.pick1.indexOf i))
      ∧ lsfF G i
        = 95 + (5/2) * (limestoneF G i - 78) + (1/2) * G.z (18 * G.N + G.pick1.indexOf i)
      ∧ (i ∉ G.pick3 →
          freeLimeF G i
            = 1 + (2/5) * (lsfF G i - 95)
              + (1 + (1/2) * G.u (subsetSize G + G.pick1.indexOf i))))
    ∧ (i ∈ G.pick2 →
      powerF G i = power0 G i + (200 + 200 * G.u (2 * subsetSize G + G.pick2.indexOf i))
      ∧ finenessF G i = fineness0 G i - (300 + 200 * G.u (3 * subsetSize G + G.pick2.indexOf i))
      ∧ elecF G i = powerF G i / (clinker G i + gypsum G i))
    ∧ (i ∈ G.pick3 →
      driveF G i = driveCurrent0 G i + (30 + 30 * G.u (4 * subsetSize G + G.pick3.indexOf i))
      ∧ freeLimeF G i = freeLime1 G i + (1/2 + (3/10) * G.u (5 * subsetSize G + G.pick3.indexOf i))
      ∧ thermalF G i = thermal0 G i + (50 + 30 * G.u (6 * subsetSize G + G.pick3.indexOf i))) := by
  intro G i
  refine ⟨fun h1 => ⟨?_, ?_, fun h3 => ?_⟩, fun h2 => ⟨?_, ?_, ?_⟩, fun h3 => ⟨?_, ?_, ?_⟩⟩
  · simp only [limestoneF, if_pos h1]
  · simp only [lsfF, if_pos h1]; ring
  · simp only [freeLimeF, freeLime1, if_neg h3, if_pos h1]; ring
  · simp only [powerF, if_pos h2]
  · simp only [finenessF, if_pos h2]
  · simp only [elecF, if_pos h2]
  · simp only [driveF, if_pos h3]
  · simp only [freeLimeF, if_pos h3]
  · simp only [thermalF, if_pos h3]

/-- C3 witness: on the concrete run `Gc`, row 0 (High LSF only) satisfies the
overridden free-lime formula, row 1 (mill inefficiency) satisfies the
recomputed electrical-energy ratio, and row 2 (kiln instability) satisfies
the thermal-energy increment. -/
theorem C3_amended_anomaly_formulas_witness :
    freeLimeF Gc 0
      = 1 + (2/5) * (lsfF Gc 0 - 95) + (1 + (1/2) * Gc.u (subsetSize Gc + Gc.pick1.indexOf 0))
    ∧ elecF Gc 1 = powerF Gc 1 / (clinker Gc 1 + gypsum Gc 1)
    ∧ thermalF Gc 2 = thermal0 Gc 2 + (50 + 30 * Gc.u (6 * subsetSize Gc + Gc.pick3.indexOf 2)) :=
  ⟨((C3_amended_anomaly_formulas Gc 0).1 (by decide)).2.2 (by decide),
   ((C3_amended_anomaly_formulas Gc 1).2.1 (by decide)).2.2,
   ((C3_amended_anomaly_formulas Gc 2).2.2 (by decide)).2.2⟩

/-- C4: each anomaly subset produced by `np.random.choice` on the full index
range without replacement has size `num_problems // 3 = (15*N/100)/3`, which
equals `⌊0.15*N/3⌋ = N/20`; the subsets are duplicate-free and contained in
the full index range, each draw is taken from the full range with no
exclusion of previously chosen rows, so a row can be selected by two
scenarios — and then the last-applied overwrite wins, as the concrete
overlapping run in the final conjunct shows. -/
theorem C4_subset_selection :
    (∀ G : GenInput, validPicks G →
      G.pick1.length = G.N / 20 ∧ G.pick2.length = G.N / 20 ∧ G.pick3.length = G.N / 20
      ∧ G.pick1.Nodup ∧ G.pick2.Nodup ∧ G.pick3.Nodup
      ∧ (∀ i ∈ G.pick1, i < G.N) ∧ (∀ i ∈ G.pick2, i < G.N) ∧ (∀ i ∈ G.pick3, i < G.N))
    ∧ (∀ n : Nat, subsetSizeN n = n / 20 ∧ ⌊((15:ℚ)/100 * n) / 3⌋₊ = n / 20)
    ∧ (∃ G : GenInput, validPicks G ∧ 0 ∈ G.pick1 ∧ 0 ∈ G.pick3
        ∧ freeLimeF G 0 = freeLime1 G 0 + (1/2 + (3/10) * G.u (5 * subsetSize G + G.pick3.indexOf 0))) := by
  have hsz : ∀ n : Nat, subsetSizeN n = n / 20 := by
    intro n; unfold subsetSizeN numProblemsN; omega
  refine ⟨?_, ?_, ?_⟩
  · rintro G ⟨⟨l1, n1, b1⟩, ⟨l2, n2, b2⟩, ⟨l3, n3, b3⟩⟩
    rw [l1, l2, l3]
    have h := hsz G.N
    exact ⟨by simpa [subsetSize] using h, by simpa [subsetSize] using h,
      by simpa [subsetSize] using h, n1, n2, n3, b1, b2, b3⟩
  · intro n
    refine ⟨hsz n, ?_⟩
    have e : ((15:ℚ)/100 * n) / 3 = (n : ℚ) / ((20 : Nat) : ℚ) := by push_cast; ring
    rw [e, Nat.floor_div_nat, Nat.floor_natCast]
  · refine ⟨Gc3, by decide, by decide, by decide, ?_⟩
    simp only [freeLimeF, if_pos (show 0 ∈ Gc3.pick3 by decide)]

/-- C4 witness: on the concrete valid run `Gc` with 20 rows, each anomaly
subset has the predicted size `20 / 20 = 1`. -/
theorem C4_subset_selection_witness :
    Gc.pick1.length = Gc.N / 20 ∧ Gc.pick2.length = Gc.N / 20 ∧ Gc.pick3.length = Gc.N / 20 :=
  ⟨(C4_subset_selection.1 Gc (by decide)).1,
   (C4_subset_selection.1 Gc (by decide)).2.1,
   (C4_subset_selection.1 Gc (by decide)).2.2.1⟩

/-- C5 (counterexample): the post-rounding tolerance of 0.01 does not hold on
every row.  On the valid run `Gc5`, row 0 is a mill-inefficiency row with all
normal draws within five standard deviations: the overridden power draw is
5074.24735 (inside 0..5600), clinker + gypsum is 100.51 (inside the simulated
range, at least 98), the pre-rounding identity holds exactly with electrical
energy 50.485 — yet the rounded columns give
`|50.48 - 5074.25 / 100.50| = 101/10050`, which exceeds 0.01. -/
theorem C5_counterexample :
    validPicks Gc5
    ∧ 0 ∈ Gc5.pick2
    ∧ elecF Gc5 0 = powerF Gc5 0 / (clinker Gc5 0 + gypsum Gc5 0)
    ∧ 0 ≤ powerF Gc5 0
    ∧ powerF Gc5 0 ≤ 5600
    ∧ 98 ≤ clinker Gc5 0 + gypsum Gc5 0
    ∧ round2 (elecF Gc5 0)
        - round2 (powerF Gc5 0) / (round2 (clinker Gc5 0) + round2 (gypsum Gc5 0))
      = -101/10050
    ∧ ¬ (|round2 (elecF Gc5 0)
          - round2 (powerF Gc5 0) / (round2 (clinker Gc5 0) + round2 (gypsum Gc5 0))| ≤ 1/100) := by
  have hp : powerF Gc5 0 = 101484947/20000 := by
    norm_num [powerF, power0, clinker, recirc, freeLime0, fuel, lsf0, limestone0,
      subsetSize, subsetSizeN, numProblemsN, Gc5]
  have hc : clinker Gc5 0 = 19001/200 := by norm_num [clinker, Gc5]
  have hg : gypsum Gc5 0 = 1101/200 := by norm_num [gypsum, Gc5]
  have he : elecF Gc5 0 = 10097/200 := by
    norm_num [elecF, hp, hc, hg, powerF, power0, clinker, recirc, freeLime0, fuel, lsf0,
      limestone0, gypsum, subsetSize, subsetSizeN, numProblemsN, Gc5]
  have hdiff : round2 (elecF Gc5 0)
      - round2 (powerF Gc5 0) / (round2 (clinker Gc5 0) + round2 (gypsum Gc5 0))
      = -101/10050 := by
    rw [he, hp, hc, hg]
    norm_num [round2, roundHE]
  refine ⟨by decide, by decide, ?_, ?_, ?_, ?_, hdiff, ?_⟩
  · simp only [elecF, if_pos (show 0 ∈ Gc5.pick2 by decide)]
  · rw [hp]; norm_num
  · rw [hp]; norm_num
  · rw [hc, hg]; norm_num
  · rw [hdiff, abs_of_neg (show (-101/10050 : ℚ) < 0 by norm_num)]
    norm_num

/-- C5 (amended): for every row of the finalized table, including
mill-inefficiency rows where the power draw was overridden, the
electrical-energy column equals `power / (clinker + gypsum)` exactly before
rounding.  Over the rounded column values the identity holds within 0.01 on
every row inside the sharp frontier `2*power + s ≤ s * s_rounded` — in
particular whenever `0 ≤ power ≤ 5600` and `clinker + gypsum ≥ 107` — and
within 0.011 over the whole simulated operating range
(`0 ≤ power ≤ 5600`, `clinker + gypsum ≥ 98`); just outside the frontier the
0.01 tolerance can be exceeded by up to about 0.0005, as `Gc5` exhibits. -/
theorem C5_amended_electrical_energy : ∀ (G : GenInput) (i : Nat),
    elecF G i = powerF G i / (clinker G i + gypsum G i)
    ∧ (0 ≤ powerF G i → 0 < clinker G i + gypsum G i →
        2 * powerF G i + (clinker G i + gypsum G i)
          ≤ (clinker G i + gypsum G i) * (round2 (clinker G i) + round2 (gypsum G i)) →
        |round2 (elecF G i)
          - round2 (powerF G i) / (round2 (clinker G i) + round2 (gypsum G i))| ≤ 1/100)
    ∧ (0 ≤ powerF G i → powerF G i ≤ 5600 → 107 ≤ clinker G i + gypsum G i →
        |round2 (elecF G i)
          - round2 (powerF G i) / (round2 (clinker G i) + round2 (gypsum G i))| ≤ 1/100)
    ∧ (0 ≤ powerF G i → powerF G i ≤ 5600 → 98 ≤ clinker G i + gypsum G i →
        |round2 (elecF G i)
          - round2 (powerF G i) / (round2 (clinker G i) + round2 (gypsum G i))| ≤ 11/1000) := by
  intro G i
  have hid : elecF G i = powerF G i / (clinker G i + gypsum G i) := by
    by_cases h : i ∈ G.pick2
    · simp only [elecF, if_pos h]
    · simp only [elecF, powerF, elec0, if_neg h]
  refine ⟨hid, fun h1 h2 h3 => ?_, fun h1 h2 h3 => ?_, fun h1 h2 h3 => ?_⟩
  · rw [hid]
    exact ratio_round_frontier _ _ _ h1 h2 h3
  · rw [hid]
    exact ratio_round_bound107 _ _ _ h1 h2 h3
  · rw [hid]
    exact ratio_round_bound98 _ _ _ h1 h2 h3

/-- C5 witness: on the concrete run `Gc`, row 5 has power 4800 and
clinker + gypsum 115.5 — inside both the 107-threshold region and the full
operating range — and its rounded electrical-energy cell reproduces the
rounded ratio within 0.01 and within 0.011. -/
theorem C5_amended_electrical_energy_witness :
    (|round2 (elecF Gc 5)
      - round2 (powerF Gc 5) / (round2 (clinker Gc 5) + round2 (gypsum Gc 5))| ≤ 1/100)
    ∧ (|round2 (elecF Gc 5)
      - round2 (powerF Gc 5) / (round2 (clinker Gc 5) + round2 (gypsum Gc 5))| ≤ 11/1000) :=
  ⟨(C5_amended_electrical_energy Gc 5).2.2.1
    (by norm_num [powerF, power0, clinker, recirc, freeLime0, fuel, lsf0, limestone0, Gc])
    (by norm_num [powerF, power0, clinker, recirc, freeLime0, fuel, lsf0, limestone0, Gc])
    (by norm_num [clinker, gypsum, Gc]),
   (C5_amended_electrical_energy Gc 5).2.2.2
    (by norm_num [powerF, power0, clinker, recirc, freeLime0, fuel, lsf0, limestone0, Gc])
    (by norm_num [powerF, power0, clinker, recirc, freeLime0, fuel, lsf0, limestone0, Gc])
    (by norm_num [clinker, gypsum, Gc])⟩

/-- C6: two runs with the same `N` and the same seed-determined random state
(the same normal stream, uniform stream and choice subsets, replayed in the
same order) but arbitrary wall-clock readings produce identical values in
every non-timestamp cell of every row; if the clock readings also agree, the
entire output including timestamps is identical. -/
theorem C6_seed_reproducibility :
    ∀ (N : Nat) (z u : Nat → ℚ) (p1 p2 p3 : List Nat) (ck ck' : Nat → ℚ) (iv : ℚ),
    (outputRows (GenInput.mk N z u p1 p2 p3 ck iv)).map (fun r => List.drop 1 r)
      = (outputRows (GenInput.mk N z u p1 p2 p3 ck' iv)).map (fun r => List.drop 1 r)
    ∧ (ck = ck' → outputRows (GenInput.mk N z u p1 p2 p3 ck iv)
        = outputRows (GenInput.mk N z u p1 p2 p3 ck' iv)) := by
  intro N z u p1 p2 p3 ck ck' iv
  constructor
  · simp only [outputRows, List.map_map]
    exact congrArg (fun f => List.map f (List.range N)) (funext fun i => rfl)
  · intro h; subst h; rfl

/-- C6 witness: the concrete runs `Gc` and `Gct` differ only in wall-clock
instant and agree on every non-timestamp cell. -/
theorem C6_seed_reproducibility_witness :
    (outputRows Gc).map (fun r => List.drop 1 r) = (outputRows Gct).map (fun r => List.drop 1 r)
    ∧ outputRows Gc = outputRows Gc :=
  ⟨(C6_seed_reproducibility 20 (fun _ => 0) (fun _ => 0) [0] [1] [2] (fun _ => 0)
      (fun _ => 100) 15).1,
   (C6_seed_reproducibility 20 (fun _ => 0) (fun _ => 0) [0] [1] [2] (fun _ => 0)
      (fun _ => 0) 15).2 rfl⟩

/-- C7 (counterexample): the storage-safe renaming does not follow the stated
convention of replacing a slash by `per`: the air-flow column
kiln_burner_air_flow_m3/hr contains a slash, yet its storage name
kiln_burner_air_flow_m3_hr contains no letter p at all, so no form of a
`per` replacement occurred there (the slash became a plain underscore). -/
theorem C7_counterexample :
    column_order.get? 9 = some "kiln_burner_air_flow_m3/hr"
    ∧ bq_friendly_columns.get? 9 = some "kiln_burner_air_flow_m3_hr"
    ∧ "kiln_burner_air_flow_m3/hr".toList.contains '/' = true
    ∧ "kiln_burner_air_flow_m3_hr".toList.contains 'p' = false := by
  refine ⟨rfl, rfl, by decide, by decide⟩

/-- C7 (amended): the finalized table has exactly `N` rows, each with exactly
the 21 canonical columns in the fixed canonical order, rounded to two
decimals in every numeric column (the timestamp cell is not rounded), and the
header row carries the fixed storage-safe names of `bq_friendly_columns` —
an explicit list that mostly follows the percent-to-pct and slash-to-per
convention but renders the air-flow slash as a plain underscore and
lowercases some unit abbreviations. -/
theorem C7_amended_finalization : ∀ G : GenInput,
    (outputRows G).length = G.N
    ∧ outputHeader = bq_friendly_columns
    ∧ outputHeader.length = 21
    ∧ column_order.length = 21
    ∧ (∀ r ∈ outputRows G, r.length = 21)
    ∧ (∀ i, finalRow G i = ts G i :: (numericColsPre G i).map round2) := by
  intro G
  refine ⟨by simp [outputRows], rfl, rfl, rfl, ?_, fun i => rfl⟩
  intro r hr
  simp only [outputRows, List.mem_map] at hr
  obtain ⟨i, -, rfl⟩ := hr
  rfl

/-- C7 witness: on the concrete run `Gc`, the first finalized row has exactly
21 cells. -/
theorem C7_amended_finalization_witness : (finalRow Gc 0).length = 21 :=
  (C7_amended_finalization Gc).2.2.2.2.1 (finalRow Gc 0)
    (List.mem_map_of_mem (finalRow Gc) (by decide : (0:ℕ) ∈ List.range 20))

/-- C8: with the wall clock constant over the generation loop (the spec treats
generation time as a single instant), consecutive timestamps differ by exactly
the sampling interval, the sequence starts at generation time, and it is
strictly decreasing whenever the interval is positive (the default is
15 minutes). -/
theorem C8_timestamps : ∀ G : GenInput, (∀ j, G.clock j = G.clock 0) →
    (∀ i : Nat, ts G i - ts G (i+1) = G.interval)
    ∧ (0 < G.interval → ∀ i : Nat, ts G (i+1) < ts G i)
    ∧ ts G 0 = G.clock 0 := by
  intro G hc
  have key : ∀ i : Nat, ts G i - ts G (i+1) = G.interval := by
    intro i
    simp only [ts, hc i, hc (i+1)]
    push_cast
    ring
  refine ⟨key, ?_, by simp [ts]⟩
  intro hpos i
  have h := key i
  linarith

/-- C8 witness: on the concrete run `Gc` (constant clock, 15-minute interval),
the first two timestamps differ by the interval and decrease. -/
theorem C8_timestamps_witness : ts Gc 0 - ts Gc 1 = Gc.interval ∧ ts Gc 1 < ts Gc 0 :=
  ⟨(C8_timestamps Gc (fun _ => rfl)).1 0,
   (C8_timestamps Gc (fun _ => rfl)).2.1 (by norm_num [Gc]) 0⟩

/-- C9 (counterexample): not every service maps validation errors to 400.
In the image-analysis service an invalid or empty JSON body — a validation
error in the classification of the claim — is answered with status 500 by the
single catch-all handler, not 400. -/
theorem C9_counterexample :
    imageAnalyze none none = Resp.err 500 "Invalid JSON or empty request body."
    ∧ (imageAnalyze none none).status ≠ 400 := ⟨rfl, by decide⟩

/-- C9 (amended): the services classify errors as in the claim but map them to
statuses per service: the thermal service answers 400 for an empty or invalid
body, 503 for an uninitialized endpoint, 400 for missing features, 500 for a
failed prediction and 200 with the rounded value on success; the free-lime
service answers 400 only for an empty or invalid body and otherwise always
200; the image-analysis and recommendation services answer 200 on success and
500 for every error, validation included; every error body is of the
`{error: message}` shape modeled by `Resp.err`. -/
theorem C9_amended_error_mapping :
    (∀ (b : Bool) (v : Option ℚ), (thermalPredict b none v).status = 400)
    ∧ (∀ (j : String → Option ℚ) (v : Option ℚ), (thermalPredict false (some j) v).status = 503)
    ∧ (∀ (j : String → Option ℚ) (v : Option ℚ),
        missingFeatures thermalFeatures j ≠ [] → (thermalPredict true (some j) v).status = 400)
    ∧ (∀ (j : String → Option ℚ),
        missingFeatures thermalFeatures j = [] → (thermalPredict true (some j) none).status = 500)
    ∧ (∀ (j : String → Option ℚ) (q : ℚ),
        missingFeatures thermalFeatures j = [] →
          thermalPredict true (some j) (some q)
            = Resp.okJson "kiln_specific_thermal_energy_Kcal/kg_clinker" (some (round2 q)))
    ∧ (∀ (b : Bool) (v : Option ℚ), (freeLimePredict b none v).status = 400)
    ∧ (∀ (b : Bool) (j : String → Option ℚ) (v : Option ℚ),
        (freeLimePredict b (some j) v).status = 200)
    ∧ (∀ (b : Option (String → Option String)) (g : Option String),
        (imageAnalyze b g).status = 200 ∨ ∃ m, imageAnalyze b g = Resp.err 500 m)
    ∧ (∀ (b : Option (Bool × Bool)) (g : Option String),
        (recommendSvc b g).status = 200 ∨ ∃ m, recommendSvc b g = Resp.err 500 m) := by
  refine ⟨?_, ?_, ?_, ?_, ?_, ?_, ?_, ?_, ?_⟩
  · intro b v; cases b <;> rfl
  · intro j v; rfl
  · intro j v h; simp only [thermalPredict, if_pos h]; rfl
  · intro j h; simp only [thermalPredict, h]; rfl
  · intro j q h; simp only [thermalPredict, h]; rfl
  · intro b v; cases b <;> rfl
  · intro b j v
    cases b
    · rfl
    · by_cases h : missingFeatures freeLimeFeatures j = []
      · simp only [freeLimePredict, h]
        cases v <;> rfl
      · simp only [freeLimePredict, if_pos h]; rfl
  · intro b g
    cases b with
    | none => exact Or.inr ⟨_, rfl⟩
    | some j =>
      cases hj : j "image_data_b64" with
      | none =>
        simp only [imageAnalyze, hj]
        exact Or.inr ⟨_, rfl⟩
      | some v =>
        cases g with
        | none =>
          simp only [imageAnalyze, hj]
          exact Or.inr ⟨_, rfl⟩
        | some t =>
          simp only [imageAnalyze, hj]
          exact Or.inl rfl
  · intro b g
    cases b with
    | none => exact Or.inr ⟨_, rfl⟩
    | some p =>
      obtain ⟨ci, pk⟩ := p
      by_cases h : (ci && pk) = true
      · cases g with
        | none =>
          simp only [recommendSvc, if_pos h]
          exact Or.inr ⟨_, rfl⟩
        | some t =>
          simp only [recommendSvc, if_pos h]
          exact Or.inl rfl
      · simp only [recommendSvc, if_neg h]
        exact Or.inr ⟨_, rfl⟩

/-- C9 witness: with the thermal endpoint initialized, an all-absent payload
is answered 400 and a complete payload with a failed external call 500. -/
theorem C9_amended_error_mapping_witness :
    (thermalPredict true (some jNone) none).status = 400
    ∧ (thermalPredict true (some jAll) none).status = 500 :=
  ⟨C9_amended_error_mapping.2.2.1 jNone none (by decide),
   C9_amended_error_mapping.2.2.2.1 jAll (by decide)⟩

/-- C10: in the clinker-free-lime service every POST with a well-formed JSON
body is answered 200 with a body keyed clinker_free_lime_%; when the external
endpoint is uninitialized, when any required feature is missing, or when the
external call fails or returns an unexpected shape, the value is null rather
than an error status. -/
theorem C10_freelime_always_200 : ∀ (b : Bool) (j : String → Option ℚ) (v : Option ℚ),
    (freeLimePredict b (some j) v).status = 200
    ∧ (∃ w, freeLimePredict b (some j) v = Resp.okJson "clinker_free_lime_%" w)
    ∧ (b = false → freeLimePredict b (some j) v = Resp.okJson "clinker_free_lime_%" none)
    ∧ (missingFeatures freeLimeFeatures j ≠ [] →
        freeLimePredict b (some j) v = Resp.okJson "clinker_free_lime_%" none)
    ∧ (v = none → freeLimePredict b (some j) v = Resp.okJson "clinker_free_lime_%" none) := by
  intro b j v
  have main : (freeLimePredict b (some j) v).status = 200
      ∧ ∃ w, freeLimePredict b (some j) v = Resp.okJson "clinker_free_lime_%" w := by
    cases b
    · exact ⟨rfl, none, rfl⟩
    · by_cases h : missingFeatures freeLimeFeatures j = []
      · simp only [freeLimePredict, h]
        cases v
        · exact ⟨rfl, none, rfl⟩
        · exact ⟨rfl, _, rfl⟩
      · simp only [freeLimePredict, if_pos h]
        exact ⟨rfl, none, rfl⟩
  refine ⟨main.1, main.2, ?_, ?_, ?_⟩
  · rintro rfl; rfl
  · intro hm
    cases b
    · rfl
    · simp only [freeLimePredict, if_pos hm]
  · rintro rfl
    cases b
    · rfl
    · by_cases h : missingFeatures freeLimeFeatures j = []
      · simp only [freeLimePredict, h]
        simp
      · simp only [freeLimePredict, if_pos h]

/-- C10 witness: with an uninitialized endpoint, a complete payload and a
failed external call, the free-lime service still answers 200 with null. -/
theorem C10_freelime_always_200_witness :
    (freeLimePredict false (some jAll) none).status = 200
    ∧ freeLimePredict false (some jAll) none = Resp.okJson "clinker_free_lime_%" none :=
  ⟨(C10_freelime_always_200 false jAll none).1,
   (C10_freelime_always_200 false jAll none).2.2.1 rfl⟩

end Cement
